import Mathlib

/-!
Shallow embedding of the Go sample code in this repository:

* a container-analysis sample file (functions createNote, createOccurrence,
  updateNote, updateOccurrence, deleteNote, deleteOccurrence, getNote,
  getOccurrence, getDiscoveryInfo, getOccurrencesForNote,
  getOccurrencesForImage, occurrencePubsub, createOccurrenceSubscription), and
* healthcare/dataset_delete.go (function deleteDataset).

Each Go function builds one request value from its string parameters, performs
one remote call through an injected client, and maps the response back.  The
embedding makes every remote client an explicit function parameter, records
the request values the function sends, the lines it prints, and the Go return
values.  Errors are opaque and carried as their message text.
-/

namespace GolangSamples

/-- An opaque remote error, represented by its message text
(Go error values are only passed through or wrapped by this code). -/
abbrev Err := String

/-! ### Go string formatting

The Go code composes identifier strings with fmt.Sprintf.  A "%s" verb is
plain insertion, embedded directly as string concatenation.  A "%q" verb is
Go quoting (strconv.Quote): the string is wrapped in double quotes and
special characters are backslash-escaped.  The embedding below is exact for
ASCII characters; non-ASCII runes are conservatively hex-escaped (Go escapes
only the non-printable ones), and every property proved in this file
evaluates quoting on ASCII strings only. -/

/-- Hexadecimal digit for a value below 16, as Go prints it (lowercase). -/
def hexDigit (n : Nat) : Char :=
  if n < 10 then Char.ofNat (48 + n) else Char.ofNat (87 + n)

/-- Four-digit lowercase hex rendering of a code point below 0x10000. -/
def hex4 (n : Nat) : String :=
  String.mk [hexDigit (n / 4096 % 16), hexDigit (n / 256 % 16),
             hexDigit (n / 16 % 16), hexDigit (n % 16)]

/-- How Go quoting renders one character: double quote and backslash are
backslash-escaped, the standard control characters get their mnemonic
escapes, other printable ASCII characters stand for themselves, everything
else is hex-escaped. -/
def goQuoteChar (c : Char) : String :=
  if c = '"' then "\\\""
  else if c = '\\' then "\\\\"
  else if c = Char.ofNat 7 then "\\a"
  else if c = Char.ofNat 8 then "\\b"
  else if c = Char.ofNat 12 then "\\f"
  else if c = '\n' then "\\n"
  else if c = '\r' then "\\r"
  else if c = '\t' then "\\t"
  else if c = Char.ofNat 11 then "\\v"
  else if 32 ≤ c.toNat ∧ c.toNat ≤ 126 then String.singleton c
  else if c.toNat < 32 ∨ c.toNat = 127 then "\\x" ++ String.mk [hexDigit (c.toNat / 16), hexDigit (c.toNat % 16)]
  else if c.toNat < 65536 then "\\u" ++ hex4 c.toNat
  else "\\U" ++ hex4 (c.toNat / 65536) ++ hex4 c.toNat

/-- Escape a character list as Go quoting does, character by character. -/
def goQuoteAux : List Char → String
  | [] => ""
  | c :: cs => goQuoteChar c ++ goQuoteAux cs

/-- Embedding of the Go "%q" verb on a string: the Go-quoted form. -/
def goQuote (s : String) : String := "\"" ++ goQuoteAux s.data ++ "\""

/-- A character that Go quoting copies verbatim: printable ASCII other than
the double quote and the backslash. -/
def isPlainChar (c : Char) : Bool :=
  32 ≤ c.toNat && c.toNat ≤ 126 && c ≠ '"' && c ≠ '\\'

/-! ### Container-analysis data model (grafeas request/response values)

The proto payloads are opaque to this code; only the fields the Go samples
actually set are modelled. -/

/-- The payload kind createNote installs (an empty vulnerability record). -/
inductive NoteType
  | vulnerability
deriving DecidableEq, Repr

/-- A grafeas Note as this code builds it: only its payload kind. -/
structure Note where
  type : NoteType
deriving DecidableEq, Repr

/-- A grafeas Occurrence as this code builds it: the referenced note path,
the resource URI, and an (empty) vulnerability details payload. -/
structure Occurrence where
  noteName : String
  resourceUri : String
deriving DecidableEq, Repr

structure CreateNoteRequest where
  parent : String
  noteId : String
  note : Note
deriving DecidableEq, Repr

structure CreateOccurrenceRequest where
  parent : String
  occurrence : Occurrence
deriving DecidableEq, Repr

structure UpdateNoteRequest where
  name : String
  note : Note
deriving DecidableEq, Repr

structure UpdateOccurrenceRequest where
  name : String
  occurrence : Occurrence
deriving DecidableEq, Repr

structure DeleteNoteRequest where
  name : String
deriving DecidableEq, Repr

structure DeleteOccurrenceRequest where
  name : String
deriving DecidableEq, Repr

structure GetNoteRequest where
  name : String
deriving DecidableEq, Repr

structure GetOccurrenceRequest where
  name : String
deriving DecidableEq, Repr

/-! ### Simple one-call operations

Each embedding returns the request it sent together with the Go return
values.  A client is a function from the request to the remote outcome. -/

/-- createNote: builds a CreateNoteRequest from (noteID, projectID) and
returns the remote call's result unchanged. -/
def createNote (client : CreateNoteRequest → Except Err Note)
    (noteID projectID : String) : CreateNoteRequest × Except Err Note :=
  let projectName := "projects/" ++ projectID
  let req : CreateNoteRequest :=
    { parent := projectName, noteId := noteID,
      note := { type := NoteType.vulnerability } }
  (req, client req)

/-- createOccurrence: builds a CreateOccurrenceRequest whose parent comes
from occProjectID and whose embedded note reference comes from
(noteProjectID, noteID); returns the remote result unchanged. -/
def createOccurrence (client : CreateOccurrenceRequest → Except Err Occurrence)
    (imageURL noteID occProjectID noteProjectID : String) :
    CreateOccurrenceRequest × Except Err Occurrence :=
  let req : CreateOccurrenceRequest :=
    { parent := "projects/" ++ occProjectID,
      occurrence :=
        { noteName := "projects/" ++ noteProjectID ++ "/notes/" ++ noteID,
          resourceUri := imageURL } }
  (req, client req)

/-- updateNote: addresses the note by its composed path and returns the
remote result unchanged. -/
def updateNote (client : UpdateNoteRequest → Except Err Note)
    (updated : Note) (noteID projectID : String) :
    UpdateNoteRequest × Except Err Note :=
  let req : UpdateNoteRequest :=
    { name := "projects/" ++ projectID ++ "/notes/" ++ noteID, note := updated }
  (req, client req)

/-- updateOccurrence: takes the fully qualified occurrence name as given and
returns the remote result unchanged. -/
def updateOccurrence (client : UpdateOccurrenceRequest → Except Err Occurrence)
    (updated : Occurrence) (occurrenceName : String) :
    UpdateOccurrenceRequest × Except Err Occurrence :=
  let req : UpdateOccurrenceRequest :=
    { name := occurrenceName, occurrence := updated }
  (req, client req)

/-- deleteNote: addresses the note by its composed path and returns the
remote error (or nil) unchanged. -/
def deleteNote (client : DeleteNoteRequest → Option Err)
    (noteID projectID : String) : DeleteNoteRequest × Option Err :=
  let req : DeleteNoteRequest :=
    { name := "projects/" ++ projectID ++ "/notes/" ++ noteID }
  (req, client req)

/-- deleteOccurrence: takes the fully qualified occurrence name as given and
returns the remote error (or nil) unchanged. -/
def deleteOccurrence (client : DeleteOccurrenceRequest → Option Err)
    (occurrenceName : String) : DeleteOccurrenceRequest × Option Err :=
  let req : DeleteOccurrenceRequest := { name := occurrenceName }
  (req, client req)

/-- Rendering of a possibly nil Note pointer by fmt.Println: a nil pointer
prints as the fixed nil marker, a present note as its proto rendering. -/
def showNote : Option Note → String
  | none => "<nil>"
  | some _ => "type: vulnerability"

/-- Rendering of a possibly nil Occurrence pointer by fmt.Println. -/
def showOccurrence : Option Occurrence → String
  | none => "<nil>"
  | some o => o.noteName ++ " " ++ o.resourceUri

/-- getNote: addresses the note by its composed path; the Go client returns
the value-and-error pair, the function prints the value unconditionally and
returns the pair unchanged.  Result: (request, printed lines, returns). -/
def getNote (client : GetNoteRequest → Option Note × Option Err)
    (noteID projectID : String) :
    GetNoteRequest × List String × (Option Note × Option Err) :=
  let req : GetNoteRequest :=
    { name := "projects/" ++ projectID ++ "/notes/" ++ noteID }
  let res := client req
  (req, [showNote res.1], (res.1, res.2))

/-- getOccurrence: takes the fully qualified occurrence name; prints the
retrieved value unconditionally and returns the value-and-error pair
unchanged.  Result: (request, printed lines, returns). -/
def getOccurrence (client : GetOccurrenceRequest → Option Occurrence × Option Err)
    (occurrenceName : String) :
    GetOccurrenceRequest × List String × (Option Occurrence × Option Err) :=
  let req : GetOccurrenceRequest := { name := occurrenceName }
  let res := client req
  (req, [showOccurrence res.1], (res.1, res.2))

/-! ### Paginated listing operations

A server cursor yields its elements in order and then terminates: either with
the end-of-stream sentinel (iterator.Done, modelled as none) or with a
mid-stream error (modelled as some e).  A listed Occurrence is opaque to the
loops, which only print it; it is carried as its printed rendering. -/

/-- A listed occurrence, carried as the line fmt.Println emits for it. -/
abbrev OccLine := String

/-- A paginated result stream: the elements the cursor yields in order,
then either the end-of-stream sentinel (none) or a mid-stream error. -/
structure Cursor where
  elems : List OccLine
  fin : Option Err
deriving DecidableEq, Repr

structure ListOccurrencesRequest where
  parent : String
  filter : String
deriving DecidableEq, Repr

structure ListNoteOccurrencesRequest where
  name : String
deriving DecidableEq, Repr

/-- The body of getDiscoveryInfo's loop: repeatedly take the next cursor
result; on the end-of-stream sentinel stop with nil, on an error stop with
that error, otherwise print the element and continue.
Result: (printed lines, returned error). -/
def listLoop : List OccLine → Option Err → List String × Option Err
  | [], none => ([], none)
  | [], some e => ([], some e)
  | occ :: rest, fin =>
      let r := listLoop rest fin
      (occ :: r.1, r.2)

/-- The body of the counting loops in getOccurrencesForNote and
getOccurrencesForImage: like listLoop but with a running count, returned on
the end-of-stream sentinel; a mid-stream error returns (-1, error).
Result: (printed lines, returned count, returned error). -/
def countLoop : List OccLine → Option Err → Int → List String × Int × Option Err
  | [], none, count => ([], count, none)
  | [], some e, _ => ([], -1, some e)
  | occ :: rest, fin, count =>
      let r := countLoop rest fin (count + 1)
      (occ :: r.1, r.2.1, r.2.2)

/-- Result of a run of getDiscoveryInfo: the list request it sent, the lines
it printed, and the Go return value (an error or nil — nothing else). -/
structure DiscoveryRun where
  req : ListOccurrencesRequest
  out : List String
  ret : Option Err
deriving DecidableEq, Repr

/-- Result of a run of getOccurrencesForNote or getOccurrencesForImage: the
request sent, the lines printed, and the Go return pair (count, error). -/
structure CountedRun (Req : Type) where
  req : Req
  out : List String
  count : Int
  ret : Option Err
deriving DecidableEq, Repr

/-- getDiscoveryInfo: lists occurrences under projects/(projectID) filtered
to discovery occurrences of the image (the URL inserted with the Go "%q"
verb), prints each element, and returns nil or the first cursor error. -/
def getDiscoveryInfo (client : ListOccurrencesRequest → Cursor)
    (imageURL projectID : String) : DiscoveryRun :=
  let req : ListOccurrencesRequest :=
    { parent := "projects/" ++ projectID,
      filter := "kind=\"DISCOVERY\" AND resourceUrl=" ++ goQuote imageURL }
  let it := client req
  let r := listLoop it.elems it.fin
  { req := req, out := r.1, ret := r.2 }

/-- getOccurrencesForNote: lists the occurrences of the note addressed by its
composed path, printing and counting each; returns (count, nil) at the
end-of-stream sentinel and (-1, error) on a mid-stream error. -/
def getOccurrencesForNote (client : ListNoteOccurrencesRequest → Cursor)
    (noteID projectID : String) : CountedRun ListNoteOccurrencesRequest :=
  let req : ListNoteOccurrencesRequest :=
    { name := "projects/" ++ projectID ++ "/notes/" ++ noteID }
  let it := client req
  let r := countLoop it.elems it.fin 0
  { req := req, out := r.1, count := r.2.1, ret := r.2.2 }

/-- getOccurrencesForImage: lists occurrences under projects/(projectID)
filtered to the image (the URL inserted with the Go "%q" verb), printing and
counting each; returns (count, nil) at the end-of-stream sentinel and
(-1, error) on a mid-stream error. -/
def getOccurrencesForImage (client : ListOccurrencesRequest → Cursor)
    (imageURL projectID : String) : CountedRun ListOccurrencesRequest :=
  let req : ListOccurrencesRequest :=
    { parent := "projects/" ++ projectID,
      filter := "resourceUrl=" ++ goQuote imageURL }
  let it := client req
  let r := countLoop it.elems it.fin 0
  { req := req, out := r.1, count := r.2.1, ret := r.2.2 }

/-! ### Pub/Sub operations -/

/-- An inbound Pub/Sub message, carried as its data payload. -/
structure Message where
  data : String
deriving DecidableEq, Repr

/-- Result of a run of occurrencePubsub: the lines printed, the messages
acknowledged (in processing order), and the Go return pair (count, error). -/
structure PubsubRun where
  out : List String
  acked : List Message
  count : Int
  ret : Option Err
deriving DecidableEq, Repr

/-- The receive callback of occurrencePubsub, applied (under the mutex,
hence serially) to each delivered message in turn: increment the counter,
print "Message (count): (quoted data)", acknowledge the message.
Result: (printed lines, acknowledged messages, final counter). -/
def receiveLoop : List Message → Int → List String × List Message × Int
  | [], count => ([], [], count)
  | msg :: rest, count =>
      let line := "Message " ++ toString (count + 1) ++ ": " ++ goQuote msg.data
      let r := receiveLoop rest (count + 1)
      (line :: r.1, msg :: r.2.1, r.2.2)

/-- occurrencePubsub: creates a Pub/Sub client and receives messages on the
subscription until the timeout-derived context expires.  The delivery
mechanism is opaque; a session is summarised by the client-creation outcome,
the messages the library delivers to the callback before the deadline (the
mutex serialises the callback, so they form a sequence), and the error
sub.Receive returns after the deadline.  On a client-creation or receive
error the function returns (-1, that error); otherwise it prints the final
count and returns (count, nil). -/
def occurrencePubsub (newClientErr : Option Err) (delivered : List Message)
    (receiveErr : Option Err) (subscriptionID : String) (timeout : Int)
    (projectID : String) : PubsubRun :=
  match newClientErr with
  | some e => { out := [], acked := [], count := -1, ret := some e }
  | none =>
    let r := receiveLoop delivered 0
    match receiveErr with
    | some e => { out := r.1, acked := r.2.1, count := -1, ret := some e }
    | none =>
        { out := r.1 ++ [toString r.2.2], acked := r.2.1,
          count := r.2.2, ret := none }

/-- The subscription configuration createOccurrenceSubscription builds: the
topic it binds to, carried as the topic id the client handle was asked for. -/
structure SubscriptionConfig where
  topic : String
deriving DecidableEq, Repr

/-- Result of a run of createOccurrenceSubscription: the (subscription id,
configuration) pair passed to the remote CreateSubscription call, if the
call was reached, and the Go return value. -/
structure CreateSubRun where
  created : Option (String × SubscriptionConfig)
  ret : Option Err
deriving DecidableEq, Repr

/-- createOccurrenceSubscription: creates a Pub/Sub client for projectID and
creates a subscription named subscriptionID on the fixed occurrence topic.
Client-creation and remote errors are returned unchanged. -/
def createOccurrenceSubscription (newClientErr : Option Err)
    (createSubErr : Option Err) (subscriptionID projectID : String) :
    CreateSubRun :=
  match newClientErr with
  | some e => { created := none, ret := some e }
  | none =>
    let topicID := "container-analysis-occurrences-v1beta1"
    let config : SubscriptionConfig := { topic := topicID }
    { created := some (subscriptionID, config), ret := createSubErr }

/-! ### Healthcare dataset deletion -/

/-- Result of a run of deleteDataset: the dataset names passed to the remote
delete call (in order), the lines written to the output writer, and the Go
return value. -/
structure DeleteDatasetRun where
  deletes : List String
  out : List String
  ret : Option Err
deriving DecidableEq, Repr

/-- deleteDataset: creates the healthcare service, composes the dataset name
projects/(p)/locations/(l)/datasets/(d), and issues one remote delete for
it.  A service-creation error is returned wrapped with the static
"healthcare.New: " text; a remote delete error is returned wrapped with the
static "Delete: " text; on success it writes a confirmation line (the name
inserted with the Go "%q" verb) and returns nil. -/
def deleteDataset (newServiceErr : Option Err) (deleteCall : String → Option Err)
    (projectID location datasetID : String) : DeleteDatasetRun :=
  match newServiceErr with
  | some e => { deletes := [], out := [], ret := some ("healthcare.New: " ++ e) }
  | none =>
    let name := "projects/" ++ projectID ++ "/locations/" ++ location
                ++ "/datasets/" ++ datasetID
    match deleteCall name with
    | some e => { deletes := [name], out := [], ret := some ("Delete: " ++ e) }
    | none =>
        { deletes := [name],
          out := ["Deleted dataset: " ++ goQuote name],
          ret := none }

/-! ### Viewing Go return tuples uniformly

Some spec sentences speak of "the returned count" across operations with
different Go signatures.  A Go multiple-return tuple is rendered as a list
of returned values so that such sentences can be stated (and refuted) for a
function whose signature has no count. -/

/-- One Go return value: an integer or an error slot. -/
inductive GoValue
  | int : Int → GoValue
  | err : Option Err → GoValue
deriving DecidableEq, Repr

/-- The Go return tuple of getDiscoveryInfo: it returns only an error. -/
def DiscoveryRun.goReturns (r : DiscoveryRun) : List GoValue :=
  [GoValue.err r.ret]

/-- The Go return tuple of getOccurrencesForNote and getOccurrencesForImage:
the count, then the error. -/
def CountedRun.goReturns {Req : Type} (r : CountedRun Req) : List GoValue :=
  [GoValue.int r.count, GoValue.err r.ret]

/-- Modelled from the claim wording for the Pub/Sub session: one printed
line per delivered message, numbered consecutively starting above the given
counter value, each carrying the quoted message payload. -/
def expectedMessageLines : List Message → Int → List String
  | [], _ => []
  | m :: rest, start =>
      ("Message " ++ toString (start + 1) ++ ": " ++ goQuote m.data)
        :: expectedMessageLines rest (start + 1)

end GolangSamples

namespace GolangSamples

/-! ## Helper lemmas -/

/-- A cursor that ends in a mid-stream error makes listLoop print every
element it yielded and return that error. -/
theorem listLoop_err (elems : List OccLine) (e : Err) :
    listLoop elems (some e) = (elems, some e) := by
  induction elems with
  | nil => rfl
  | cons x xs ih => simp [listLoop, ih]

/-- A cursor that reaches the end-of-stream sentinel makes listLoop print
every element and return nil. -/
theorem listLoop_done (elems : List OccLine) :
    listLoop elems none = (elems, none) := by
  induction elems with
  | nil => rfl
  | cons x xs ih => simp [listLoop, ih]

/-- A cursor that ends in a mid-stream error makes countLoop print every
element it yielded and return the sentinel -1 with that error. -/
theorem countLoop_err (elems : List OccLine) (e : Err) (c : Int) :
    countLoop elems (some e) c = (elems, -1, some e) := by
  induction elems generalizing c with
  | nil => rfl
  | cons x xs ih => simp [countLoop, ih]

/-- A cursor that reaches the end-of-stream sentinel makes countLoop print
every element and return the counter advanced by the number of elements,
with nil error. -/
theorem countLoop_done (elems : List OccLine) (c : Int) :
    countLoop elems none c = (elems, c + elems.length, none) := by
  induction elems generalizing c with
  | nil => simp [countLoop]
  | cons x xs ih =>
    simp [countLoop, ih]
    omega

/-- The receive callback, run over the delivered messages: it prints the
numbered quoted lines, acknowledges every message in order, and advances the
counter by the number of messages. -/
theorem receiveLoop_spec (msgs : List Message) (c : Int) :
    receiveLoop msgs c = (expectedMessageLines msgs c, msgs, c + msgs.length) := by
  induction msgs generalizing c with
  | nil => simp [receiveLoop, expectedMessageLines]
  | cons m rest ih =>
    simp [receiveLoop, expectedMessageLines, ih]
    omega

/-- Go quoting copies a plain character (printable ASCII, not a quote or
backslash) verbatim. -/
theorem goQuoteChar_plain (c : Char) (h : isPlainChar c = true) :
    goQuoteChar c = String.singleton c := by
  simp only [isPlainChar, Bool.and_eq_true, decide_eq_true_eq] at h
  obtain ⟨⟨⟨h1, h2⟩, h3⟩, h4⟩ := h
  have hne : ∀ d : Char, c.toNat ≠ d.toNat → c ≠ d := by
    intro d hn hc
    exact hn (by rw [hc])
  unfold goQuoteChar
  rw [if_neg h3, if_neg h4,
      if_neg (hne _ (by rw [show (Char.ofNat 7).toNat = 7 from by decide]; omega)),
      if_neg (hne _ (by rw [show (Char.ofNat 8).toNat = 8 from by decide]; omega)),
      if_neg (hne _ (by rw [show (Char.ofNat 12).toNat = 12 from by decide]; omega)),
      if_neg (hne _ (by rw [show ('\n').toNat = 10 from by decide]; omega)),
      if_neg (hne _ (by rw [show ('\r').toNat = 13 from by decide]; omega)),
      if_neg (hne _ (by rw [show ('\t').toNat = 9 from by decide]; omega)),
      if_neg (hne _ (by rw [show (Char.ofNat 11).toNat = 11 from by decide]; omega)),
      if_pos ⟨h1, h2⟩]

/-- Go quoting copies a list of plain characters verbatim. -/
theorem goQuoteAux_plain (cs : List Char) (h : cs.all isPlainChar = true) :
    goQuoteAux cs = String.mk cs := by
  induction cs with
  | nil => rfl
  | cons c cs ih =>
    simp only [List.all_cons, Bool.and_eq_true] at h
    rw [goQuoteAux, goQuoteChar_plain c h.1, ih h.2]
    rfl

/-- On a string of plain characters, Go quoting is just wrapping in double
quotes. -/
theorem goQuote_plain (s : String) (h : s.data.all isPlainChar = true) :
    goQuote s = "\"" ++ s ++ "\"" := by
  rw [goQuote, goQuoteAux_plain s.data h]

/-- Appending a nonempty string on the left changes a string. -/
theorem ne_of_append_left (p s : String) (hp : p.data.length ≠ 0) :
    p ++ s ≠ s := by
  intro h
  have hd := congrArg String.data h
  rw [String.data_append] at hd
  have hl := congrArg List.length hd
  rw [List.length_append] at hl
  omega

end GolangSamples

namespace GolangSamples

/-! ## The claims -/

/-- Claim C1, counterexample: on a cursor that errors after one element,
getDiscoveryInfo returns only the underlying error.  Its Go return tuple,
viewed as the list of returned values, contains no integer at all — in
particular not the sentinel count -1 that the claim asserts it returns. -/
theorem getDiscoveryInfo_error_returns_no_count :
    (getDiscoveryInfo (fun _ => ⟨["occA"], some "boom"⟩) "img" "proj").ret
        = some "boom" ∧
    GoValue.int (-1)
        ∉ (getDiscoveryInfo (fun _ => ⟨["occA"], some "boom"⟩) "img" "proj").goReturns := by
  decide

/-- Claim C1 (amended): if the cursor yields an error after its elements,
each listing operation prints exactly the elements that preceded the error
and stops, returning the underlying error; getOccurrencesForNote and
getOccurrencesForImage additionally return the sentinel count -1, while
getDiscoveryInfo, whose only Go return value is the error, returns no
count. -/
theorem paginated_midstream_error (elems : List OccLine) (e : Err)
    (noteID projectID imageURL : String) :
    (getOccurrencesForNote (fun _ => ⟨elems, some e⟩) noteID projectID).out = elems ∧
    (getOccurrencesForNote (fun _ => ⟨elems, some e⟩) noteID projectID).count = -1 ∧
    (getOccurrencesForNote (fun _ => ⟨elems, some e⟩) noteID projectID).ret = some e ∧
    (getOccurrencesForImage (fun _ => ⟨elems, some e⟩) imageURL projectID).out = elems ∧
    (getOccurrencesForImage (fun _ => ⟨elems, some e⟩) imageURL projectID).count = -1 ∧
    (getOccurrencesForImage (fun _ => ⟨elems, some e⟩) imageURL projectID).ret = some e ∧
    (getDiscoveryInfo (fun _ => ⟨elems, some e⟩) imageURL projectID).out = elems ∧
    (getDiscoveryInfo (fun _ => ⟨elems, some e⟩) imageURL projectID).ret = some e := by
  simp [getOccurrencesForNote, getOccurrencesForImage, getDiscoveryInfo,
        countLoop_err, listLoop_err]

/-- Claim C2, counterexample: on a cursor yielding one element and then the
end-of-stream sentinel, getDiscoveryInfo prints the element and returns nil,
but its Go return tuple contains no count at all — in particular not the
count 1 the claim asserts it returns. -/
theorem getDiscoveryInfo_success_returns_no_count :
    (getDiscoveryInfo (fun _ => ⟨["occB"], none⟩) "img" "proj").out = ["occB"] ∧
    (getDiscoveryInfo (fun _ => ⟨["occB"], none⟩) "img" "proj").ret = none ∧
    GoValue.int 1
        ∉ (getDiscoveryInfo (fun _ => ⟨["occB"], none⟩) "img" "proj").goReturns := by
  decide

/-- Claim C2 (amended): on a cursor yielding exactly its elements and then
the end-of-stream sentinel, each listing operation prints exactly one line
per element, in cursor order; getOccurrencesForNote and
getOccurrencesForImage return the element count with nil error, while
getDiscoveryInfo, which returns no count, returns nil. -/
theorem paginated_success (elems : List OccLine) (noteID projectID imageURL : String) :
    (getOccurrencesForNote (fun _ => ⟨elems, none⟩) noteID projectID).out = elems ∧
    (getOccurrencesForNote (fun _ => ⟨elems, none⟩) noteID projectID).count = elems.length ∧
    (getOccurrencesForNote (fun _ => ⟨elems, none⟩) noteID projectID).ret = none ∧
    (getOccurrencesForImage (fun _ => ⟨elems, none⟩) imageURL projectID).out = elems ∧
    (getOccurrencesForImage (fun _ => ⟨elems, none⟩) imageURL projectID).count = elems.length ∧
    (getOccurrencesForImage (fun _ => ⟨elems, none⟩) imageURL projectID).ret = none ∧
    (getDiscoveryInfo (fun _ => ⟨elems, none⟩) imageURL projectID).out = elems ∧
    (getDiscoveryInfo (fun _ => ⟨elems, none⟩) imageURL projectID).ret = none := by
  simp [getOccurrencesForNote, getOccurrencesForImage, getDiscoveryInfo,
        countLoop_done, listLoop_done]

/-- Claim C3: every operation returns the remote client's error to its
caller unchanged; the one exception is dataset deletion, which returns the
remote delete error wrapped with a static message text — and the wrapped
error differs from the original. -/
theorem error_propagation (e : Err) (u : Note) (uo : Occurrence)
    (elems : List OccLine) (msgs : List Message)
    (noteID projectID imageURL occurrenceName subscriptionID location datasetID : String)
    (timeout : Int) :
    (createNote (fun _ => Except.error e) noteID projectID).2 = Except.error e ∧
    (createOccurrence (fun _ => Except.error e) imageURL noteID projectID projectID).2
        = Except.error e ∧
    (updateNote (fun _ => Except.error e) u noteID projectID).2 = Except.error e ∧
    (updateOccurrence (fun _ => Except.error e) uo occurrenceName).2 = Except.error e ∧
    (deleteNote (fun _ => some e) noteID projectID).2 = some e ∧
    (deleteOccurrence (fun _ => some e) occurrenceName).2 = some e ∧
    (getNote (fun _ => (none, some e)) noteID projectID).2.2.2 = some e ∧
    (getOccurrence (fun _ => (none, some e)) occurrenceName).2.2.2 = some e ∧
    (getDiscoveryInfo (fun _ => ⟨elems, some e⟩) imageURL projectID).ret = some e ∧
    (getOccurrencesForNote (fun _ => ⟨elems, some e⟩) noteID projectID).ret = some e ∧
    (getOccurrencesForImage (fun _ => ⟨elems, some e⟩) imageURL projectID).ret = some e ∧
    (occurrencePubsub (some e) msgs none subscriptionID timeout projectID).ret = some e ∧
    (occurrencePubsub none msgs (some e) subscriptionID timeout projectID).ret = some e ∧
    (createOccurrenceSubscription (some e) none subscriptionID projectID).ret = some e ∧
    (createOccurrenceSubscription none (some e) subscriptionID projectID).ret = some e ∧
    (deleteDataset none (fun _ => some e) projectID location datasetID).ret
        = some ("Delete: " ++ e) ∧
    "Delete: " ++ e ≠ e := by
  refine ⟨rfl, rfl, rfl, rfl, rfl, rfl, rfl, rfl, ?_, ?_, ?_, rfl, rfl, rfl, rfl, rfl, ?_⟩
  · simp [getDiscoveryInfo, listLoop_err]
  · simp [getOccurrencesForNote, countLoop_err]
  · simp [getOccurrencesForImage, countLoop_err]
  · exact ne_of_append_left "Delete: " e (by decide)

/-- Claim C4: every operation that addresses a Note by (projectID, noteID) —
updateNote, deleteNote, getNote, getOccurrencesForNote, and the note
reference built inside createOccurrence — composes the note name exactly as
projects/(projectID)/notes/(noteID). -/
theorem note_path_composition (noteID projectID imageURL occProjectID : String)
    (u : Note)
    (cU : UpdateNoteRequest → Except Err Note)
    (cD : DeleteNoteRequest → Option Err)
    (cG : GetNoteRequest → Option Note × Option Err)
    (cL : ListNoteOccurrencesRequest → Cursor)
    (cC : CreateOccurrenceRequest → Except Err Occurrence) :
    (updateNote cU u noteID projectID).1.name
        = "projects/" ++ projectID ++ "/notes/" ++ noteID ∧
    (deleteNote cD noteID projectID).1.name
        = "projects/" ++ projectID ++ "/notes/" ++ noteID ∧
    (getNote cG noteID projectID).1.name
        = "projects/" ++ projectID ++ "/notes/" ++ noteID ∧
    (getOccurrencesForNote cL noteID projectID).req.name
        = "projects/" ++ projectID ++ "/notes/" ++ noteID ∧
    (createOccurrence cC imageURL noteID occProjectID projectID).1.occurrence.noteName
        = "projects/" ++ projectID ++ "/notes/" ++ noteID :=
  ⟨rfl, rfl, rfl, rfl, rfl⟩

/-- Claim C5: deleteDataset issues exactly one remote delete, whose name
argument is exactly projects/(projectID)/locations/(location)/datasets/(datasetID),
and returns nil when that delete succeeds. -/
theorem deleteDataset_single_exact_delete (projectID location datasetID : String) :
    (deleteDataset none (fun _ => none) projectID location datasetID).deletes
        = ["projects/" ++ projectID ++ "/locations/" ++ location
            ++ "/datasets/" ++ datasetID] ∧
    (deleteDataset none (fun _ => none) projectID location datasetID).ret = none :=
  ⟨rfl, rfl⟩

/-- Claim C6: in a receive session where the messages are delivered before
the deadline and the receive primitive then returns without error, every
delivered message bumps the counter by exactly one (the printed lines are
numbered consecutively from 1), is printed with its quoted payload, and is
acknowledged; the operation returns the message count with nil error. -/
theorem pubsub_session (msgs : List Message) (subscriptionID projectID : String)
    (timeout : Int) :
    (occurrencePubsub none msgs none subscriptionID timeout projectID).count
        = msgs.length ∧
    (occurrencePubsub none msgs none subscriptionID timeout projectID).acked = msgs ∧
    (occurrencePubsub none msgs none subscriptionID timeout projectID).ret = none ∧
    (occurrencePubsub none msgs none subscriptionID timeout projectID).out
        = expectedMessageLines msgs 0 ++ [toString (msgs.length : Int)] := by
  simp [occurrencePubsub, receiveLoop_spec]

/-- Claim C7: createOccurrenceSubscription binds the created subscription to
the fixed topic container-analysis-occurrences-v1beta1, whatever its
subscriptionID and projectID arguments are, and passes the subscriptionID
through to the remote create call. -/
theorem subscription_fixed_topic (subscriptionID projectID : String)
    (createSubErr : Option Err) :
    (createOccurrenceSubscription none createSubErr subscriptionID projectID).created
        = some (subscriptionID, { topic := "container-analysis-occurrences-v1beta1" }) ∧
    (createOccurrenceSubscription none createSubErr subscriptionID projectID).ret
        = createSubErr :=
  ⟨rfl, rfl⟩

/-- Claim C8, counterexample: for an image URL containing a double quote,
the filters carry the Go-quoted (backslash-escaped) form of the URL, not the
URL inserted verbatim between quotes as the claim states. -/
theorem filter_escapes_quote_in_url :
    (getOccurrencesForImage (fun _ => ⟨[], none⟩) "a\"b" "proj").req.filter
        = "resourceUrl=\"a\\\"b\"" ∧
    (getOccurrencesForImage (fun _ => ⟨[], none⟩) "a\"b" "proj").req.filter
        ≠ "resourceUrl=" ++ "\"" ++ "a\"b" ++ "\"" ∧
    (getDiscoveryInfo (fun _ => ⟨[], none⟩) "a\"b" "proj").req.filter
        ≠ "kind=\"DISCOVERY\" AND resourceUrl=" ++ "\"" ++ "a\"b" ++ "\"" := by
  decide

/-- Claim C8 (amended): the filters insert the image URL with Go quoting;
for every URL of printable ASCII characters containing no double quote and
no backslash, this is exactly the URL wrapped in double quotes, so
getDiscoveryInfo sends kind="DISCOVERY" AND resourceUrl="(url)" and
getOccurrencesForImage sends resourceUrl="(url)". -/
theorem filters_quote_url (imageURL projectID : String)
    (cl : ListOccurrencesRequest → Cursor)
    (h : imageURL.data.all isPlainChar = true) :
    (getDiscoveryInfo cl imageURL projectID).req.filter
        = "kind=\"DISCOVERY\" AND resourceUrl=" ++ "\"" ++ imageURL ++ "\"" ∧
    (getOccurrencesForImage cl imageURL projectID).req.filter
        = "resourceUrl=" ++ "\"" ++ imageURL ++ "\"" := by
  have hq := goQuote_plain imageURL h
  constructor
  · show "kind=\"DISCOVERY\" AND resourceUrl=" ++ goQuote imageURL = _
    rw [hq, ← String.append_assoc, ← String.append_assoc]
  · show "resourceUrl=" ++ goQuote imageURL = _
    rw [hq, ← String.append_assoc, ← String.append_assoc]

/-- Witness for the amended claim C8 at a concrete plain URL. -/
theorem filters_quote_url_witness :
    "gcr.io/my-project/my-image".data.all isPlainChar = true ∧
    ((getDiscoveryInfo (fun _ => ⟨[], none⟩) "gcr.io/my-project/my-image" "proj").req.filter
        = "kind=\"DISCOVERY\" AND resourceUrl=" ++ "\"" ++ "gcr.io/my-project/my-image" ++ "\"" ∧
     (getOccurrencesForImage (fun _ => ⟨[], none⟩) "gcr.io/my-project/my-image" "proj").req.filter
        = "resourceUrl=" ++ "\"" ++ "gcr.io/my-project/my-image" ++ "\"") :=
  ⟨by decide,
   filters_quote_url "gcr.io/my-project/my-image" "proj" (fun _ => ⟨[], none⟩) (by decide)⟩

/-- Claim C9: getNote and getOccurrence print the retrieved value
unconditionally and return the client's value-and-error pair unchanged; in
particular, on a failing call that yields (nil, error) they print the nil
marker and return the nil value together with the error. -/
theorem get_prints_unconditionally (noteID projectID occurrenceName : String)
    (noteRes : Option Note) (occRes : Option Occurrence) (errRes : Option Err)
    (e : Err) :
    (getNote (fun _ => (noteRes, errRes)) noteID projectID).2
        = ([showNote noteRes], (noteRes, errRes)) ∧
    (getOccurrence (fun _ => (occRes, errRes)) occurrenceName).2
        = ([showOccurrence occRes], (occRes, errRes)) ∧
    (getNote (fun _ => (none, some e)) noteID projectID).2
        = (["<nil>"], (none, some e)) ∧
    (getOccurrence (fun _ => (none, some e)) occurrenceName).2
        = (["<nil>"], (none, some e)) :=
  ⟨rfl, rfl, rfl, rfl⟩

/-- Claim C10: createOccurrence builds the occurrence parent from
occProjectID and the embedded note reference from noteProjectID; when the
two differ, the created Occurrence lives under projects/(occProjectID) while
referencing a Note under projects/(noteProjectID). -/
theorem createOccurrence_independent_projects
    (imageURL noteID occProjectID noteProjectID : String)
    (client : CreateOccurrenceRequest → Except Err Occurrence)
    (h : occProjectID ≠ noteProjectID) :
    (createOccurrence client imageURL noteID occProjectID noteProjectID).1.parent
        = "projects/" ++ occProjectID ∧
    (createOccurrence client imageURL noteID occProjectID noteProjectID).1.occurrence.noteName
        = "projects/" ++ noteProjectID ++ "/notes/" ++ noteID :=
  ⟨rfl, rfl⟩

/-- Witness for claim C10 at a concrete pair of distinct project ids. -/
theorem createOccurrence_independent_projects_witness :
    ("occ-proj" : String) ≠ "note-proj" ∧
    ((createOccurrence (fun _ => Except.error "e") "img" "note1" "occ-proj" "note-proj").1.parent
        = "projects/" ++ "occ-proj" ∧
     (createOccurrence (fun _ => Except.error "e") "img" "note1" "occ-proj" "note-proj").1.occurrence.noteName
        = "projects/" ++ "note-proj" ++ "/notes/" ++ "note1") :=
  ⟨by decide,
   createOccurrence_independent_projects "img" "note1" "occ-proj" "note-proj"
     (fun _ => Except.error "e") (by decide)⟩

end GolangSamples
